import Mathlib

/-!
Verification of the gotex library (src/main.go), a small LaTeX-rendering
orchestrator.  The Go code is shallowly embedded: the external world
(temporary-directory creation, the subprocess spawn/wait outcomes of each
pass, the log file visible after each pass, the pdf artifact file, the
outcome of the final directory removal) is an oracle structure Env, and
Render is a pure function of the document, the options and the oracle,
returning both the Go return value and an observable trace: the commands
started, the rerun-detector consultations, and the cleanup facts.
-/

namespace Gotex

/-- The substring scanned for in the LaTeX log (src/main.go line 140):
a log line such as
"Label(s) may have changed. Rerun to get cross-references right."
signals that another pass is required. -/
def rerunMarker : String := "Rerun to get"

/-- Go path.Join for a temporary-directory name and a plain file name.
ioutil.TempDir returns a path without a trailing slash and the file names
joined here ("gotex.log", "gotex.pdf") are clean, so path.Join is plain
concatenation with a slash in every reachable case. -/
def pathJoin (dir file : String) : String := dir ++ "/" ++ file

/-- Options (src/main.go lines 45-54): the compiler executable and the
number of runs.  Runs is a Go int, hence Int here: it may be negative. -/
structure Options where
  command : String
  runs : Int
deriving DecidableEq

/-- One prepared subprocess, as configured by runLatex (src/main.go lines
106-113): executable name, argument list, working directory, and the bytes
fed on standard input. -/
structure Cmd where
  command : String
  args : List String
  dir : String
  stdin : String
deriving DecidableEq

/-- The oracle for everything outside the process: filesystem and child
processes.  Pass indices are 0-based. -/
structure Env where
  /-- Result of ioutil.TempDir("", "gotex-"): the fresh directory, or an
  error message. -/
  tempDir : Except String String
  /-- Whether cmd.Start() succeeds for the pass with this index. -/
  startOk : Nat → Bool
  /-- The error message cmd.Start() returns when it fails. -/
  startErr : Nat → String
  /-- Whether cmd.Wait() reports a zero exit status for the pass with this
  index. -/
  waitOk : Nat → Bool
  /-- The text files readable after the pass with this index has completed:
  path to lines, none when the file cannot be opened. -/
  fsAfter : Nat → String → Option (List String)
  /-- ioutil.ReadFile on a byte file after the loop: path to bytes, none
  when unreadable. -/
  readPdf : String → Option (List Nat)
  /-- The error message ioutil.ReadFile returns when it fails. -/
  readPdfErr : String
  /-- Whether os.RemoveAll(dir) succeeds. -/
  removeAllOk : Bool

/-- The fixed argument list of src/main.go line 106. -/
def latexArgs : List String := ["-jobname=gotex", "-halt-on-error"]

/-- The subprocess prepared by runLatex: fixed args, cwd set to the
temporary directory, the document fed over stdin (src/main.go 106-113). -/
def mkLatexCmd (command document dir : String) : Cmd :=
  { command := command, args := latexArgs, dir := dir, stdin := document }

/-- The error value of one runLatex call (src/main.go 116-125): a Start
failure returns the raw error; a Wait failure (non-zero exit) is replaced
by a message pointing at the log file; otherwise nil. -/
def runLatexErr (env : Env) (i : Nat) (dir : String) : Option String :=
  if env.startOk i then
    if env.waitOk i then none
    else some ("LaTeX error. Check " ++ pathJoin dir "gotex.log")
  else some (env.startErr i)

/-- runLatex (src/main.go 105-126): returns the command it prepared and
started together with its Go error value, none on success. -/
def runLatex (env : Env) (i : Nat) (document : String) (options : Options)
    (dir : String) : Cmd × Option String :=
  (mkLatexCmd options.command document dir, runLatexErr env i dir)

/-- Substring containment on character lists, the semantics of Go
strings.Contains: true when needle occurs contiguously in the hay. -/
def containsSub (needle : List Char) : List Char → Bool
  | [] => needle.isEmpty
  | c :: rest => needle.isPrefixOf (c :: rest) || containsSub needle rest

/-- The scanner loop of needsRerun (src/main.go 136-144): scan the lines in
order and return true on the first line containing the marker. -/
def scanForMarker : List String → Bool
  | [] => false
  | line :: rest =>
    if containsSub rerunMarker.toList line.toList then true
    else scanForMarker rest

/-- needsRerun (src/main.go 130-145): open dir/gotex.log through the given
file oracle; an unopenable file yields false, otherwise scan the lines for
the rerun marker. -/
def needsRerun (fs : String → Option (List String)) (dir : String) : Bool :=
  match fs (pathJoin dir "gotex.log") with
  | none => false
  | some lines => scanForMarker lines

/-- The observable outcome of the render loop (src/main.go 81-91): the Go
error aborting it (none when it ran to completion), the commands started in
order, and the rerun-detector answers in order. -/
structure LoopOut where
  err : Option String
  cmds : List Cmd
  detects : List Bool
deriving DecidableEq

/-- The loop of Render (src/main.go 81-91):
for rerun := true; rerun and runs < maxRuns; runs++ with body
runLatex / abort on error / in auto mode rerun = needsRerun(dir).
fuel stands for maxRuns - runs, so the guard runs < maxRuns is the guard
fuel > 0, expressed by the pattern match; runs is still passed so the
oracle can answer per pass. -/
def renderLoopAux (env : Env) (options : Options) (document dir : String) :
    Nat → Nat → Bool → LoopOut
  | 0, _, _ => { err := none, cmds := [], detects := [] }
  | fuel + 1, runs, rerun =>
    if rerun then
      match runLatex env runs document options dir with
      | (cmd, some e) => { err := some e, cmds := [cmd], detects := [] }
      | (cmd, none) =>
        if options.runs = 0 then
          let ans := needsRerun (env.fsAfter runs) dir
          let rest := renderLoopAux env options document dir fuel (runs + 1) ans
          { rest with cmds := cmd :: rest.cmds, detects := ans :: rest.detects }
        else
          let rest := renderLoopAux env options document dir fuel (runs + 1) rerun
          { rest with cmds := cmd :: rest.cmds }
    else { err := none, cmds := [], detects := [] }

/-- Everything observable about one Render call: the Go return value plus
the trace facts the specification talks about. -/
structure RenderOut where
  /-- The Go return value: pdf bytes or the error. -/
  result : Except String (List Nat)
  /-- The subprocesses started, in order. -/
  cmds : List Cmd
  /-- The rerun-detector answers, in order. -/
  detects : List Bool
  /-- The temporary directory, when its creation succeeded. -/
  dirCreated : Option String
  /-- Whether ioutil.ReadFile(dir/gotex.pdf) was reached. -/
  artifactReadAttempted : Bool
  /-- Whether os.RemoveAll(dir) was reached. -/
  removeAttempted : Bool
  /-- Whether the temporary directory still exists when Render returns. -/
  dirExists : Bool

/-- The defaulting step of Render (src/main.go 62-64): an empty command
becomes pdflatex. -/
def setDefaults (options : Options) : Options :=
  { options with
    command := if options.command = "" then "pdflatex" else options.command }

/-- The pass bound of Render (src/main.go 76-79): 5, overridden by a
positive runs count.  The Go loop counts runs up from 0 with an int
counter, so the bound is taken as a Nat. -/
def maxRunsOf (options : Options) : Nat :=
  if options.runs > 0 then options.runs.toNat else 5

/-- Render (src/main.go 60-102).  Defaults the command to pdflatex, creates
the temporary directory (failure is returned at once), caps the loop at 5
passes unless options.runs > 0 fixes the count, runs the loop, reads
dir/gotex.pdf, and removes the directory only on the all-success path,
ignoring the removal outcome. -/
def Render (env : Env) (document : String) (options0 : Options) : RenderOut :=
  let options : Options := setDefaults options0
  match env.tempDir with
  | Except.error e =>
    { result := Except.error e, cmds := [], detects := [], dirCreated := none,
      artifactReadAttempted := false, removeAttempted := false,
      dirExists := false }
  | Except.ok dir =>
    let maxRuns : Nat := maxRunsOf options
    let lp := renderLoopAux env options document dir maxRuns 0 true
    match lp.err with
    | some e =>
      { result := Except.error e, cmds := lp.cmds, detects := lp.detects,
        dirCreated := some dir, artifactReadAttempted := false,
        removeAttempted := false, dirExists := true }
    | none =>
      match env.readPdf (pathJoin dir "gotex.pdf") with
      | none =>
        { result := Except.error env.readPdfErr, cmds := lp.cmds,
          detects := lp.detects, dirCreated := some dir,
          artifactReadAttempted := true, removeAttempted := false,
          dirExists := true }
      | some bytes =>
        { result := Except.ok bytes, cmds := lp.cmds, detects := lp.detects,
          dirCreated := some dir, artifactReadAttempted := true,
          removeAttempted := true, dirExists := !env.removeAllOk }

end Gotex

namespace Gotex

/-- A log line that requests another pass. -/
def rerunLine : String :=
  "Label(s) may have changed. Rerun to get cross-references right."

/-- A log line that does not request another pass. -/
def quietLine : String := "Output written on gotex.pdf (1 page, 2 bytes)."

/-- A world in which everything succeeds and every log requests a rerun. -/
def envAllOk : Env :=
  { tempDir := Except.ok "/tmp/gotex-1",
    startOk := fun _ => true,
    startErr := fun _ => "start failure",
    waitOk := fun _ => true,
    fsAfter := fun _ _ => some [rerunLine],
    readPdf := fun _ => some [37, 80, 68, 70],
    readPdfErr := "read failure",
    removeAllOk := true }

/-- Like envAllOk but no log ever requests a rerun. -/
def envNoRerun : Env :=
  { envAllOk with fsAfter := fun _ _ => some [quietLine] }

/-- Like envAllOk but the logs after passes 0 and 1 request a rerun and the
log after pass 2 does not. -/
def envTwoReruns : Env :=
  { envAllOk with
    fsAfter := fun i _ => if i < 2 then some [rerunLine] else some [quietLine] }

end Gotex

namespace Gotex

/-- Like envAllOk but every subprocess fails to start. -/
def envStartFail : Env :=
  { envAllOk with startOk := fun _ => false }

/-- Like envAllOk but every subprocess exits with a non-zero status. -/
def envWaitFail : Env :=
  { envAllOk with waitOk := fun _ => false }

/-- A world in which the temporary directory cannot be created. -/
def envTmpFail : Env :=
  { envAllOk with tempDir := Except.error "tempdir failure" }

/-- Like envAllOk but the pdf artifact cannot be read. -/
def envPdfFail : Env :=
  { envAllOk with readPdf := fun _ => none }

/-- Defaulting only touches the command, never the runs count. -/
@[simp] theorem setDefaults_runs (options : Options) :
    (setDefaults options).runs = options.runs := rfl

/-- The command after defaulting. -/
@[simp] theorem setDefaults_command (options : Options) :
    (setDefaults options).command =
      if options.command = "" then "pdflatex" else options.command := rfl

/-- The render loop ignores the removeAllOk field of the oracle. -/
theorem renderLoopAux_removeAll (env : Env) (b : Bool) (options : Options)
    (document dir : String) :
    ∀ fuel runs rerun,
      renderLoopAux { env with removeAllOk := b } options document dir fuel runs rerun =
        renderLoopAux env options document dir fuel runs rerun := by
  intro fuel
  induction fuel with
  | zero => intro runs rerun; rfl
  | succ n ih =>
    intro runs rerun
    simp only [renderLoopAux, runLatex, runLatexErr, needsRerun, ih]

/-- The loop does nothing once rerun is false. -/
theorem renderLoopAux_false (env : Env) (options : Options) (document dir : String)
    (fuel runs : Nat) :
    renderLoopAux env options document dir fuel runs false =
      { err := none, cmds := [], detects := [] } := by
  cases fuel <;> rfl

/-- In fixed mode (runs not 0) with every pass succeeding, the loop performs
exactly fuel passes, never consulting the detector. -/
theorem renderLoopAux_fixed (env : Env) (options : Options) (document dir : String)
    (hnz : ¬ options.runs = 0)
    (hok : ∀ i, env.startOk i = true ∧ env.waitOk i = true) :
    ∀ fuel runs, renderLoopAux env options document dir fuel runs true =
      { err := none,
        cmds := List.replicate fuel (mkLatexCmd options.command document dir),
        detects := [] } := by
  intro fuel
  induction fuel with
  | zero => intro runs; rfl
  | succ n ih =>
    intro runs
    simp only [renderLoopAux, runLatex, runLatexErr, (hok runs).1, (hok runs).2,
      if_true, if_neg hnz, ih (runs + 1), List.replicate_succ]

/-- In auto mode with every pass succeeding and every log requesting a
rerun, the loop performs exactly fuel passes, consulting the detector after
each one. -/
theorem renderLoopAux_auto_rerun (env : Env) (options : Options) (document dir : String)
    (hz : options.runs = 0)
    (hok : ∀ i, env.startOk i = true ∧ env.waitOk i = true)
    (hdet : ∀ i, needsRerun (env.fsAfter i) dir = true) :
    ∀ fuel runs, renderLoopAux env options document dir fuel runs true =
      { err := none,
        cmds := List.replicate fuel (mkLatexCmd options.command document dir),
        detects := List.replicate fuel true } := by
  intro fuel
  induction fuel with
  | zero => intro runs; rfl
  | succ n ih =>
    intro runs
    simp only [renderLoopAux, runLatex, runLatexErr, (hok runs).1, (hok runs).2,
      if_true, if_pos hz, hdet runs, ih (runs + 1), List.replicate_succ]

/-- Two option records with the same command and both in fixed mode drive
the loop identically. -/
theorem renderLoopAux_congr (env : Env) (o1 o2 : Options) (document dir : String)
    (hcmd : o1.command = o2.command)
    (h1 : ¬ o1.runs = 0) (h2 : ¬ o2.runs = 0) :
    ∀ fuel runs rerun,
      renderLoopAux env o1 document dir fuel runs rerun =
        renderLoopAux env o2 document dir fuel runs rerun := by
  intro fuel
  induction fuel with
  | zero => intro runs rerun; rfl
  | succ n ih =>
    intro runs rerun
    cases rerun with
    | false => rfl
    | true =>
      simp only [renderLoopAux, runLatex, runLatexErr, mkLatexCmd, hcmd,
        if_neg h1, if_neg h2, ih (runs + 1)]

/-- Every command the loop starts is the fixed LaTeX command. -/
theorem renderLoopAux_cmds_shape (env : Env) (options : Options) (document dir : String) :
    ∀ fuel runs rerun c,
      c ∈ (renderLoopAux env options document dir fuel runs rerun).cmds →
        c = mkLatexCmd options.command document dir := by
  intro fuel
  induction fuel with
  | zero => intro runs rerun c hc; simp [renderLoopAux] at hc
  | succ n ih =>
    intro runs rerun c hc
    cases rerun with
    | false => simp [renderLoopAux_false] at hc
    | true =>
      rw [renderLoopAux, runLatex] at hc
      rcases herr : runLatexErr env runs dir with _ | e
      · rw [herr] at hc
        by_cases hz : options.runs = 0
        · simp only [if_pos hz, if_true] at hc
          rcases List.mem_cons.mp hc with h | h
          · exact h
          · exact ih (runs + 1) _ c h
        · simp only [if_neg hz, if_true] at hc
          rcases List.mem_cons.mp hc with h | h
          · exact h
          · exact ih (runs + 1) _ c h
      · rw [herr] at hc
        simp only [if_true, List.mem_singleton] at hc
        exact hc

/-- With positive fuel and rerun still true, the loop starts at least one
command. -/
theorem renderLoopAux_cmds_nonempty (env : Env) (options : Options)
    (document dir : String) (fuel runs : Nat) (hf : 0 < fuel) :
    1 ≤ (renderLoopAux env options document dir fuel runs true).cmds.length := by
  cases fuel with
  | zero => omega
  | succ n =>
    rw [renderLoopAux, runLatex]
    rcases herr : runLatexErr env runs dir with _ | e
    · by_cases hz : options.runs = 0
      · simp [if_pos hz]
      · simp [if_neg hz]
    · simp

end Gotex

namespace Gotex

/-- One successful auto-mode pass unfolds to a cons on commands and on
detector answers, continuing with the detector answer as the new rerun
flag. -/
theorem renderLoopAux_succ_auto (env : Env) (options : Options)
    (document dir : String) (fuel runs : Nat) (hz : options.runs = 0)
    (hs : env.startOk runs = true) (hw : env.waitOk runs = true) :
    renderLoopAux env options document dir (fuel + 1) runs true =
      { err := (renderLoopAux env options document dir fuel (runs + 1)
          (needsRerun (env.fsAfter runs) dir)).err,
        cmds := mkLatexCmd options.command document dir ::
          (renderLoopAux env options document dir fuel (runs + 1)
            (needsRerun (env.fsAfter runs) dir)).cmds,
        detects := needsRerun (env.fsAfter runs) dir ::
          (renderLoopAux env options document dir fuel (runs + 1)
            (needsRerun (env.fsAfter runs) dir)).detects } := by
  simp only [renderLoopAux, runLatex, runLatexErr, hs, hw, if_true, if_pos hz]

end Gotex

namespace Gotex

/-- Claim C1: with a fixed positive pass count N, Render starts exactly N
compiler invocations and never consults the rerun detector, regardless of
what any log scan would report. -/
theorem c1_fixed_runs_exact (env : Env) (document : String) (options : Options)
    (dir : String)
    (hdir : env.tempDir = Except.ok dir)
    (hpos : 0 < options.runs)
    (hok : ∀ i, env.startOk i = true ∧ env.waitOk i = true) :
    (Render env document options).cmds.length = options.runs.toNat ∧
    (Render env document options).detects = [] := by
  have hnz : ¬ options.runs = 0 := by omega
  have hlp := renderLoopAux_fixed env (setDefaults options)
    document dir (by simpa using hnz) hok
  cases hpdf : env.readPdf (pathJoin dir "gotex.pdf") <;>
    simp [Render, hdir, hlp, hpdf, hpos, maxRunsOf]

/-- Claim C1 witness: in a concrete all-success world with three fixed
runs, exactly three commands start and the detector answer list is empty. -/
theorem c1_witness :
    (Render envAllOk "doc" { command := "", runs := 3 }).cmds.length = 3 ∧
    (Render envAllOk "doc" { command := "", runs := 3 }).detects = [] :=
  c1_fixed_runs_exact envAllOk "doc" { command := "", runs := 3 } "/tmp/gotex-1"
    rfl (by decide) (fun _ => ⟨rfl, rfl⟩)

end Gotex

namespace Gotex

/-- Claim C3: in auto mode (runs = 0), when every pass succeeds and every
log requests a rerun, Render performs exactly 5 compiler invocations — the
safety cap — and never a sixth. -/
theorem c3_auto_cap_five (env : Env) (document : String) (options : Options)
    (dir : String)
    (hdir : env.tempDir = Except.ok dir)
    (hz : options.runs = 0)
    (hok : ∀ i, env.startOk i = true ∧ env.waitOk i = true)
    (hdet : ∀ i, needsRerun (env.fsAfter i) dir = true) :
    (Render env document options).cmds.length = 5 := by
  have hlp := renderLoopAux_auto_rerun env (setDefaults options)
    document dir (by simpa using hz) hok hdet
  cases hpdf : env.readPdf (pathJoin dir "gotex.pdf") <;>
    simp [Render, hdir, hlp, hpdf, hz, maxRunsOf]

/-- Claim C3 witness: in a concrete world whose log always requests a
rerun, auto mode stops after exactly 5 passes. -/
theorem c3_witness :
    (Render envAllOk "doc" { command := "", runs := 0 }).cmds.length = 5 :=
  c3_auto_cap_five envAllOk "doc" { command := "", runs := 0 } "/tmp/gotex-1"
    rfl rfl (fun _ => ⟨rfl, rfl⟩) (fun _ => rfl)

end Gotex


namespace Gotex

/-- Claim C4: in auto mode, when the detector answers yes after the first
and second passes and no after the third, Render performs exactly 3
compiler invocations and then proceeds to read the artifact. -/
theorem c4_auto_three_passes (env : Env) (document : String) (options : Options)
    (dir : String)
    (hdir : env.tempDir = Except.ok dir)
    (hz : options.runs = 0)
    (hok : ∀ i, i < 3 → env.startOk i = true ∧ env.waitOk i = true)
    (h0 : needsRerun (env.fsAfter 0) dir = true)
    (h1 : needsRerun (env.fsAfter 1) dir = true)
    (h2 : needsRerun (env.fsAfter 2) dir = false) :
    (Render env document options).cmds.length = 3 ∧
    (Render env document options).artifactReadAttempted = true := by
  have hoz : (setDefaults options).runs = 0 := by simpa using hz
  have hlp : renderLoopAux env (setDefaults options) document dir 5 0 true =
      { err := none,
        cmds := List.replicate 3
          (mkLatexCmd (setDefaults options).command document dir),
        detects := [true, true, false] } := by
    rw [show (5 : Nat) = 4 + 1 from rfl,
      renderLoopAux_succ_auto env _ document dir 4 0 hoz
        (hok 0 (by omega)).1 (hok 0 (by omega)).2, h0,
      show (4 : Nat) = 3 + 1 from rfl,
      renderLoopAux_succ_auto env _ document dir 3 1 hoz
        (hok 1 (by omega)).1 (hok 1 (by omega)).2, h1,
      show (3 : Nat) = 2 + 1 from rfl,
      renderLoopAux_succ_auto env _ document dir 2 2 hoz
        (hok 2 (by omega)).1 (hok 2 (by omega)).2, h2,
      renderLoopAux_false]
    simp [List.replicate]
  cases hpdf : env.readPdf (pathJoin dir "gotex.pdf") <;>
    simp [Render, hdir, hlp, hpdf, hz, maxRunsOf]

/-- Claim C4 witness: a concrete world whose logs request reruns after the
first two passes only gives exactly three passes and an artifact read. -/
theorem c4_witness :
    (Render envTwoReruns "doc" { command := "", runs := 0 }).cmds.length = 3 ∧
    (Render envTwoReruns "doc" { command := "", runs := 0 }).artifactReadAttempted
      = true :=
  c4_auto_three_passes envTwoReruns "doc" { command := "", runs := 0 }
    "/tmp/gotex-1" rfl rfl (fun _ _ => ⟨rfl, rfl⟩) (by decide) (by decide)
    (by decide)

end Gotex

namespace Gotex

/-- Claim C2 counterexample: in a concrete world whose log never requests a
rerun, a negative pass count gives 5 passes with the detector never
consulted, while pass count 0 gives exactly 1 pass after consulting the
detector once — so a negative count does not behave like 0. -/
theorem c2_counterexample :
    (Render envNoRerun "doc" { command := "", runs := -1 }).cmds.length = 5 ∧
    (Render envNoRerun "doc" { command := "", runs := -1 }).detects = [] ∧
    (Render envNoRerun "doc" { command := "", runs := 0 }).cmds.length = 1 ∧
    (Render envNoRerun "doc" { command := "", runs := 0 }).detects = [false] := by
  decide

/-- Claim C2 amended: a negative pass count behaves exactly like pass count
5 — up to five unconditional passes with the rerun detector never
consulted — not like pass count 0 (auto mode). -/
theorem c2_negative_like_five (env : Env) (document : String) (options : Options)
    (hneg : options.runs < 0) :
    Render env document options = Render env document { options with runs := 5 } := by
  cases htd : env.tempDir with
  | error e => simp [Render, htd]
  | ok dir =>
    have hc := renderLoopAux_congr env
      (setDefaults options) (setDefaults { options with runs := 5 })
      document dir rfl (by simp; omega) (by simp)
    cases hpdf : env.readPdf (pathJoin dir "gotex.pdf") <;>
      simp [Render, htd, hpdf, hc, maxRunsOf,
        show ¬ (0 : Int) < options.runs by omega]

/-- Claim C2 witness for the amended statement, at a concrete negative pass
count. -/
theorem c2_witness :
    Render envNoRerun "doc" { command := "", runs := -1 } =
      Render envNoRerun "doc" { command := "", runs := 5 } :=
  c2_negative_like_five envNoRerun "doc" { command := "", runs := -1 } (by decide)

end Gotex

namespace Gotex

/-- The scanner finds the marker exactly when some line contains it. -/
theorem scanForMarker_eq_true_iff (lines : List String) :
    scanForMarker lines = true ↔
      ∃ line ∈ lines, containsSub rerunMarker.toList line.toList = true := by
  induction lines with
  | nil => simp [scanForMarker]
  | cons l rest ih =>
    rw [scanForMarker]
    split
    · next h => exact iff_of_true rfl ⟨l, List.mem_cons_self l rest, h⟩
    · next h =>
      rw [ih]
      constructor
      · rintro ⟨line, hm, hc⟩
        exact ⟨line, List.mem_cons_of_mem _ hm, hc⟩
      · rintro ⟨line, hm, hc⟩
        rcases List.mem_cons.mp hm with rfl | hm2
        · exact absurd hc h
        · exact ⟨line, hm2, hc⟩

/-- Claim C5: needsRerun is true exactly when the log file at the
well-known path dir/gotex.log is readable and one of its lines contains
the rerun marker; in particular it is false with no failure raised when
the file does not exist or cannot be opened (needsRerun is total). -/
theorem c5_needsRerun_marker (fs : String → Option (List String)) (dir : String) :
    (needsRerun fs dir = true ↔
      ∃ lines, fs (pathJoin dir "gotex.log") = some lines ∧
        ∃ line ∈ lines, containsSub rerunMarker.toList line.toList = true) ∧
    (fs (pathJoin dir "gotex.log") = none → needsRerun fs dir = false) := by
  constructor
  · cases hfs : fs (pathJoin dir "gotex.log") with
    | none => simp [needsRerun, hfs]
    | some lines => simp [needsRerun, hfs, scanForMarker_eq_true_iff]
  · intro h
    simp [needsRerun, h]

/-- Claim C5 witness: a missing log file yields false. -/
theorem c5_witness : needsRerun (fun _ => none) "/tmp/gotex-1" = false :=
  (c5_needsRerun_marker (fun _ => none) "/tmp/gotex-1").2 rfl

end Gotex

namespace Gotex

/-- Claim C6 counterexample: in a concrete world where the subprocess
cannot be started, Render returns the raw start error, a message that does
not contain the log file path (nor even the file name gotex.log) — so the
claim that a start failure also yields a message pointing at the log file
is false on the code. -/
theorem c6_counterexample :
    (Render envStartFail "doc" { command := "", runs := 1 }).result =
      Except.error "start failure" ∧
    containsSub (pathJoin "/tmp/gotex-1" "gotex.log").toList
      "start failure".toList = false ∧
    containsSub "gotex.log".toList "start failure".toList = false :=
  ⟨rfl, by decide, by decide⟩

/-- Claim C6 amended: when one compiler invocation exits with non-zero
status the Runner returns the fixed failure message pointing at the log
file path inside the working area, discarding the OS-level exit detail;
when the subprocess cannot even be started, the start error is returned
verbatim instead. -/
theorem c6_runner_errors (env : Env) (i : Nat) (document : String)
    (options : Options) (dir : String) :
    (env.startOk i = true → env.waitOk i = false →
      (runLatex env i document options dir).2 =
        some ("LaTeX error. Check " ++ pathJoin dir "gotex.log")) ∧
    (env.startOk i = false →
      (runLatex env i document options dir).2 = some (env.startErr i)) := by
  constructor
  · intro hs hw
    simp [runLatex, runLatexErr, hs, hw]
  · intro hs
    simp [runLatex, runLatexErr, hs]

/-- Claim C6 witness: a non-zero exit on pass 0 yields the log-pointing
message; a start failure on pass 0 yields the raw start error. -/
theorem c6_witness :
    (runLatex envWaitFail 0 "doc" { command := "pdflatex", runs := 1 }
      "/tmp/gotex-1").2 =
      some ("LaTeX error. Check " ++ pathJoin "/tmp/gotex-1" "gotex.log") ∧
    (runLatex envStartFail 0 "doc" { command := "pdflatex", runs := 1 }
      "/tmp/gotex-1").2 = some "start failure" :=
  ⟨(c6_runner_errors envWaitFail 0 "doc" { command := "pdflatex", runs := 1 }
      "/tmp/gotex-1").1 rfl rfl,
   (c6_runner_errors envStartFail 0 "doc" { command := "pdflatex", runs := 1 }
      "/tmp/gotex-1").2 rfl⟩

end Gotex

namespace Gotex

/-- After a successful directory creation, the commands Render reports are
exactly the commands of its loop, whatever branch it returns through. -/
theorem Render_cmds_eq (env : Env) (document : String) (options : Options)
    (dir : String) (hdir : env.tempDir = Except.ok dir) :
    (Render env document options).cmds =
      (renderLoopAux env (setDefaults options) document dir
        (maxRunsOf (setDefaults options)) 0 true).cmds := by
  cases herr : (renderLoopAux env (setDefaults options) document dir
      (maxRunsOf (setDefaults options)) 0 true).err with
  | some e => simp [Render, hdir, herr]
  | none =>
    cases hpdf : env.readPdf (pathJoin dir "gotex.pdf") with
    | none => simp [Render, hdir, herr, hpdf]
    | some bs => simp [Render, hdir, herr, hpdf]

/-- Claim C7: on success the directory removal step is reached and its
outcome never changes the returned result (a removal failure is
swallowed); on any failure after the directory was created, removal is not
reached and the directory still exists. -/
theorem c7_cleanup_policy (env : Env) (document : String) (options : Options)
    (dir : String) (hdir : env.tempDir = Except.ok dir) :
    (∀ bytes, (Render env document options).result = Except.ok bytes →
      (Render env document options).removeAttempted = true) ∧
    (∀ b, (Render { env with removeAllOk := b } document options).result =
      (Render env document options).result) ∧
    (∀ e, (Render env document options).result = Except.error e →
      (Render env document options).removeAttempted = false ∧
      (Render env document options).dirExists = true) := by
  refine ⟨?_, ?_, ?_⟩
  · intro bytes hb
    cases herr : (renderLoopAux env (setDefaults options) document dir
        (maxRunsOf (setDefaults options)) 0 true).err with
    | some e => simp [Render, hdir, herr] at hb
    | none =>
      cases hpdf : env.readPdf (pathJoin dir "gotex.pdf") with
      | none => simp [Render, hdir, herr, hpdf] at hb
      | some bs => simp [Render, hdir, herr, hpdf]
  · intro b
    have hrm := renderLoopAux_removeAll env b (setDefaults options) document dir
    simp only [hdir] at hrm
    cases herr : (renderLoopAux env (setDefaults options) document dir
        (maxRunsOf (setDefaults options)) 0 true).err with
    | some e => simp [Render, hdir, herr, hrm]
    | none =>
      cases hpdf : env.readPdf (pathJoin dir "gotex.pdf") with
      | none => simp [Render, hdir, herr, hpdf, hrm]
      | some bs => simp [Render, hdir, herr, hpdf, hrm]
  · intro e he
    cases herr : (renderLoopAux env (setDefaults options) document dir
        (maxRunsOf (setDefaults options)) 0 true).err with
    | some e2 => simp [Render, hdir, herr]
    | none =>
      cases hpdf : env.readPdf (pathJoin dir "gotex.pdf") with
      | none => simp [Render, hdir, herr, hpdf]
      | some bs => simp [Render, hdir, herr, hpdf] at he

/-- Claim C7 witness: in the all-success world the removal step is reached
and a failing removal leaves the returned result unchanged. -/
theorem c7_witness :
    (Render envAllOk "doc" { command := "", runs := 1 }).removeAttempted = true ∧
    (Render { envAllOk with removeAllOk := false } "doc"
        { command := "", runs := 1 }).result =
      (Render envAllOk "doc" { command := "", runs := 1 }).result :=
  ⟨(c7_cleanup_policy envAllOk "doc" { command := "", runs := 1 }
      "/tmp/gotex-1" rfl).1 [37, 80, 68, 70] rfl,
   (c7_cleanup_policy envAllOk "doc" { command := "", runs := 1 }
      "/tmp/gotex-1" rfl).2.1 false⟩

/-- Claim C8: when the temporary directory cannot be created, Render
returns that error at once: no compiler invocation, no artifact read, no
cleanup. -/
theorem c8_tempdir_failure (env : Env) (document : String) (options : Options)
    (e : String) (hdir : env.tempDir = Except.error e) :
    (Render env document options).result = Except.error e ∧
    (Render env document options).cmds = [] ∧
    (Render env document options).artifactReadAttempted = false ∧
    (Render env document options).removeAttempted = false := by
  simp [Render, hdir]

/-- Claim C8 witness at a concrete failing world. -/
theorem c8_witness :
    (Render envTmpFail "doc" { command := "", runs := 0 }).result =
      Except.error "tempdir failure" ∧
    (Render envTmpFail "doc" { command := "", runs := 0 }).cmds = [] ∧
    (Render envTmpFail "doc"
      { command := "", runs := 0 }).artifactReadAttempted = false ∧
    (Render envTmpFail "doc" { command := "", runs := 0 }).removeAttempted
      = false :=
  c8_tempdir_failure envTmpFail "doc" { command := "", runs := 0 }
    "tempdir failure" rfl

/-- Claim C9: every subprocess of one Render call uses the fixed argument
list, runs in the single temporary directory of that call, and receives
the whole document on standard input. -/
theorem c9_cmd_shape (env : Env) (document : String) (options : Options)
    (dir : String) (hdir : env.tempDir = Except.ok dir) :
    ∀ c ∈ (Render env document options).cmds,
      c.args = ["-jobname=gotex", "-halt-on-error"] ∧
      c.dir = dir ∧ c.stdin = document := by
  intro c hc
  rw [Render_cmds_eq env document options dir hdir] at hc
  have h := renderLoopAux_cmds_shape env (setDefaults options) document dir
    _ _ _ c hc
  subst h
  exact ⟨rfl, rfl, rfl⟩

/-- Claim C9 witness: the one command of a concrete single-pass render has
the fixed arguments, the working directory, and the document on stdin. -/
theorem c9_witness :
    (mkLatexCmd "pdflatex" "doc" "/tmp/gotex-1").args =
      ["-jobname=gotex", "-halt-on-error"] ∧
    (mkLatexCmd "pdflatex" "doc" "/tmp/gotex-1").dir = "/tmp/gotex-1" ∧
    (mkLatexCmd "pdflatex" "doc" "/tmp/gotex-1").stdin = "doc" :=
  c9_cmd_shape envAllOk "doc" { command := "", runs := 1 } "/tmp/gotex-1" rfl
    (mkLatexCmd "pdflatex" "doc" "/tmp/gotex-1") (by decide)

/-- Claim C10: once the temporary directory was created, at least one
compiler invocation is started, whatever the configuration — so Render
never reaches the artifact read, nor returns artifact bytes, with zero
passes. -/
theorem c10_at_least_one_pass (env : Env) (document : String)
    (options : Options) (dir : String) (hdir : env.tempDir = Except.ok dir) :
    1 ≤ (Render env document options).cmds.length := by
  have hM : 0 < maxRunsOf (setDefaults options) := by
    simp only [maxRunsOf, setDefaults_runs]
    split <;> omega
  rw [Render_cmds_eq env document options dir hdir]
  exact renderLoopAux_cmds_nonempty env (setDefaults options) document dir
    (maxRunsOf (setDefaults options)) 0 hM

/-- Claim C10 witness at a concrete world in auto mode. -/
theorem c10_witness :
    1 ≤ (Render envAllOk "doc" { command := "", runs := 0 }).cmds.length :=
  c10_at_least_one_pass envAllOk "doc" { command := "", runs := 0 }
    "/tmp/gotex-1" rfl

end Gotex
